import Mathlib

/-!
# Voter-education chat backend (`server.js`)

A shallow embedding of the request flow of `server.js`: the keyword classifier
of the `/api/chat` handler, the fact lookup with its fallback, the start-up
seeding of the fact store, and the handler itself as a function from the
persisted collections and the collaborators' outcomes to a response, the
new collections and the trace of calls it made.

Strings are Lean strings, that is sequences of Unicode code points; the
JavaScript string methods the source calls (`trim`, `toLowerCase`, `includes`)
are defined on the code points. The white space that `trim` removes and the
keywords the handler searches for are in the Basic Multilingual Plane, so the
results agree with those on UTF-16 code units.
-/

namespace VoterChatbot

/-! ## JavaScript string methods -/

/-- The code points removed by `String.prototype.trim`: the ECMAScript
`WhiteSpace` and `LineTerminator` productions. -/
def isWhiteSpace (c : Char) : Bool :=
  let n := c.toNat
  n == 0x09 || n == 0x0A || n == 0x0B || n == 0x0C || n == 0x0D || n == 0x20 ||
  n == 0xA0 || n == 0x1680 || (0x2000 ≤ n && n ≤ 0x200A) || n == 0x2028 ||
  n == 0x2029 || n == 0x202F || n == 0x205F || n == 0x3000 || n == 0xFEFF

/-- Trimming of a list of code points: leading, then trailing white space is dropped. -/
def trimList (cs : List Char) : List Char :=
  ((cs.dropWhile isWhiteSpace).reverse.dropWhile isWhiteSpace).reverse

/-- The method `String.prototype.trim`. -/
def trim (s : String) : String := ⟨trimList s.data⟩

/-- The test `includes` on lists of code points: the needle occurs at some position of
the text (the empty needle occurs everywhere). -/
def includesList (needle : List Char) : List Char → Bool
  | [] => needle.isEmpty
  | c :: cs => needle.isPrefixOf (c :: cs) || includesList needle cs

/-- The method `String.prototype.includes`. -/
def includes (s needle : String) : Bool := includesList needle.data s.data

/-- Lower-case mapping of the code points outside ASCII. `toLowerCase` follows
the Unicode case tables, which are no part of the repository: the mapping of a
non-ASCII code point is a parameter, given the text before it (reversed), the
code point and the text after it, and may yield any sequence of code points. -/
abbrev UnicodeLower := List Char → Char → List Char → List Char

/-- Lower-casing of code points, left to right: an ASCII code point is mapped
by the ASCII rule (`A`..`Z` to `a`..`z`, anything else unchanged), any other
code point by the Unicode table `u`. -/
def toLowerCaseList (u : UnicodeLower) (before : List Char) : List Char → List Char
  | [] => []
  | c :: cs =>
    (if c.toNat < 128 then [c.toLower] else u before c cs) ++
      toLowerCaseList u (c :: before) cs

/-- The method `String.prototype.toLowerCase`. -/
def toLowerCase (u : UnicodeLower) (s : String) : String :=
  ⟨toLowerCaseList u [] s.data⟩

/-- A needle whose first and last code points are not white space. -/
def hasSolidEnds (needle : List Char) : Bool :=
  match needle, needle.reverse with
  | c :: _, d :: _ => !isWhiteSpace c && !isWhiteSpace d
  | _, _ => false

/-- A needle of ASCII code points none of which is an upper-case letter. -/
def isLowerAscii (needle : List Char) : Bool :=
  needle.all fun c => decide (c.toNat < 128) && decide (c.toLower = c)

/-- JavaScript `a || b` where `a` is a string or `undefined`: `a` when it is a
non-empty string, `b` otherwise. -/
def orElseString (a : Option String) (b : String) : String :=
  match a with
  | some s => if s = "" then b else s
  | none => b

/-! ## Data model -/

/-- A document of the `VoterInfo` collection (`voterSchema`); dates are
milliseconds. -/
structure VoterInfo where
  topic : String
  subtopic : String
  details : String
  lastUpdated : Nat
  deriving DecidableEq, Repr

/-- A document of the `QueryLog` collection (`queryLogSchema`). -/
structure QueryLog where
  userMessage : String
  topic : String
  subtopic : String
  timestamp : Nat
  deriving DecidableEq, Repr

/-- The seed list `sampleData`; `now` is the value of `new Date()` when the
module is loaded. -/
def sampleData (now : Nat) : List VoterInfo :=
  [ { topic := "registration", subtopic := "general", details := "To register as a voter in Nigeria, visit INEC website at inec.gov.ng or any INEC office with your NIN and valid ID. Registration is free and open year-round.", lastUpdated := now },
    { topic := "registration", subtopic := "Lagos", details := "In Lagos State, register at INEC offices or designated centers. Use your BVN or NIN. Continuous registration available; check inec.gov.ng for nearest location.", lastUpdated := now },
    { topic := "polling station", subtopic := "general", details := "Find your polling unit via INEC website (inec.gov.ng) or app by entering your PVC number or address. Polling typically starts at 8 AM and ends at 4 PM.", lastUpdated := now },
    { topic := "polling station", subtopic := "Lagos", details := "Lagos voters can locate polling units on inec.gov.ng or call INEC helpline 0800-CALL-inec. Expect long queues; arrive early.", lastUpdated := now },
    { topic := "party platform", subtopic := "APC", details := "APC (All Progressives Congress): Focuses on economic reform, infrastructure development, security, and anti-corruption measures.", lastUpdated := now },
    { topic := "party platform", subtopic := "PDP", details := "PDP (People's Democratic Party): Emphasizes job creation, education, healthcare access, and agricultural development.", lastUpdated := now } ]

/-! ## Classifier (lines 74-89 of the chat handler) -/

/-- The list `states` of the chat handler. -/
def states : List String := ["lagos", "abuja", "kano", "rivers"]

/-- The value `detectedState`: the first state of `states` that the
lower-cased message includes, or `general`. -/
def detectedState (lowerMessage : String) : String :=
  orElseString (states.find? fun state => includes lowerMessage state) "general"

/-- The topic and subtopic the chat handler assigns, from the lower-cased
message. -/
def classifyLower (lowerMessage : String) : String × String :=
  if includes lowerMessage "register" || includes lowerMessage "registration" then
    ("registration", detectedState lowerMessage)
  else if includes lowerMessage "polling" || includes lowerMessage "station" ||
      includes lowerMessage "vote" then
    ("polling station", detectedState lowerMessage)
  else if includes lowerMessage "party" || includes lowerMessage "platform" then
    ("party platform",
      if includes lowerMessage "apc" then "APC"
      else if includes lowerMessage "pdp" then "PDP" else "general")
  else
    ("general", "general")

/-- The classifier of the chat handler on the trimmed message. -/
def classify (u : UnicodeLower) (userMessage : String) : String × String :=
  classifyLower (toLowerCase u userMessage)

/-! ## Fact store: lookup and seeding -/

/-- The query `VoterInfo.findOne({ topic, subtopic })`: the first document of
the collection whose two fields equal the given strings. -/
def findOne (store : List VoterInfo) (topic subtopic : String) : Option VoterInfo :=
  store.find? fun d => decide (d.topic = topic ∧ d.subtopic = subtopic)

/-- The value `info` of the chat handler (line 95): the exact match, or, when
that query yields `null`, the match of the topic with subtopic `general`. -/
def lookupInfo (store : List VoterInfo) (topic subtopic : String) : Option VoterInfo :=
  match findOne store topic subtopic with
  | some d => some d
  | none => findOne store topic "general"

/-- The document `d` is the first one of the collection with the given topic
and subtopic. -/
def IsFirstMatch (store : List VoterInfo) (topic subtopic : String) (d : VoterInfo) : Prop :=
  ∃ before after, store = before ++ d :: after ∧ d.topic = topic ∧ d.subtopic = subtopic ∧
    ∀ a ∈ before, ¬ (a.topic = topic ∧ a.subtopic = subtopic)

/-- The value `context` of the chat handler (line 96). -/
def contextOf (info : Option VoterInfo) : String :=
  match info with
  | some d => "Relevant facts: " ++ d.details
  | none => "I have general voter education info—stick to registration, polling, or party platforms for best help!"

/-- The start-up seeding step (lines 57-63), with the store calls resolving:
`countDocuments` is the length of the collection and `insertMany` appends. -/
def seed (now : Nat) (store : List VoterInfo) : List VoterInfo :=
  if store.length = 0 then store ++ sampleData now else store

/-! ## The chat handler -/

/-- The value of `req.body.message` after the JSON body parser; `undefined` is
an absent field, `object` an array or an object (a parsed JSON value has no
callable property). -/
inductive JsValue where
  | undefined
  | null
  | boolean (b : Bool)
  | number (n : Int)
  | string (s : String)
  | object
  deriving DecidableEq, Repr

/-- The exceptions of the model: a `TypeError`, or the rejection of a promise
of a collaborator. -/
inductive JsError where
  | typeError
  | rejected
  deriving DecidableEq, Repr

/-- The expression `req.body.message.trim()`: a string is trimmed, on any other
value the call raises a `TypeError`. -/
def messageTrim : JsValue → Except JsError String
  | .string s => .ok (trim s)
  | _ => .error .typeError

/-- What `res.json` sent: the status and the field `response` of the body. -/
structure Response where
  status : Nat
  response : String
  deriving DecidableEq, Repr

/-- The persisted collections the chat handler touches. -/
structure Collections where
  voterInfo : List VoterInfo
  queryLog : List QueryLog
  deriving DecidableEq, Repr

/-- A call the chat handler makes to a collaborator. -/
inductive Call where
  | queryLogCreate (userMessage topic subtopic : String)
  | voterInfoFindOne (topic subtopic : String)
  | groqCreate (system user : String)
  deriving DecidableEq, Repr

/-- Outcome of `groq.chat.completions.create`: the promise rejects, or resolves
with `choices[0]?.message?.content` being a string or `undefined`. -/
inductive Completion where
  | rejects
  | content (c : Option String)
  deriving DecidableEq, Repr

/-- What the collaborators do during one request: the case table of the
runtime, the clock, whether the store promises resolve, and the completion
service as a function of the two prompt segments. -/
structure Collaborators where
  lower : UnicodeLower
  now : Nat
  queryLogCreate : Bool
  voterInfoFindOne : Bool
  groq : String → String → Completion

/-- What one run of the chat handler leaves: the response sent if any, the
exception that left the handler if any, the collections, and the calls made to
the collaborators in order. -/
structure Result where
  response : Option Response
  thrown : Option JsError
  collections : Collections
  calls : List Call
  deriving DecidableEq, Repr

def greeting : String := "Hello! What voter question can I help with today? 😄"

def apology : String :=
  "Aw, shucks—I'm having a hiccup. For voter registration, head to inec.gov.ng. What else can I clarify?"

def noContentReply : String :=
  "Oops, something went sideways—try rephrasing? We're here to help you vote in Nigeria! 🗳️"

/-- The content of the system message (line 103). -/
def systemPrompt : String :=
  "You are a friendly, non-partisan voter education assistant for Nigeria. Keep responses engaging, concise (under 150 words), and encouraging. Use emojis sparingly (max 1-2 per response). Always base answers on provided facts—don't add opinions or unverified info. Reference INEC as the official source. End with a question to keep the chat going if it fits. Topics: voter registration (via INEC), polling units, political party platforms (e.g., APC, PDP)."

/-- The content of the user message (line 107). -/
def userPrompt (userMessage context : String) : String :=
  userMessage ++ "\n\nContext from database: " ++ context

/-- The `catch` block (lines 118-123). -/
def serverError (db : Collections) (calls : List Call) : Result :=
  { response := some ⟨500, apology⟩, thrown := none, collections := db, calls := calls }

/-- The queries line 95 issues: the exact one, and the `general` one when the
exact one yields `null`. -/
def lookupCalls (store : List VoterInfo) (topic subtopic : String) : List Call :=
  match findOne store topic subtopic with
  | some _ => [.voterInfoFindOne topic subtopic]
  | none => [.voterInfoFindOne topic subtopic, .voterInfoFindOne topic "general"]

/-- The handler of `POST /api/chat` (lines 66-124) on the value of
`req.body.message`. -/
def chatHandler (w : Collaborators) (db : Collections) (message : JsValue) : Result :=
  match messageTrim message with
  | .error e => { response := none, thrown := some e, collections := db, calls := [] }
  | .ok userMessage =>
    if userMessage = "" then
      { response := some ⟨200, greeting⟩, thrown := none, collections := db, calls := [] }
    else
      let topic := (classify w.lower userMessage).1
      let subtopic := (classify w.lower userMessage).2
      let logCall := Call.queryLogCreate userMessage topic subtopic
      if !w.queryLogCreate then serverError db [logCall]
      else
        let db1 : Collections :=
          { db with queryLog := db.queryLog ++ [⟨userMessage, topic, subtopic, w.now⟩] }
        if !w.voterInfoFindOne then
          serverError db1 [logCall, .voterInfoFindOne topic subtopic]
        else
          let info := lookupInfo db1.voterInfo topic subtopic
          let context := contextOf info
          let calls := logCall :: lookupCalls db1.voterInfo topic subtopic ++
            [.groqCreate systemPrompt (userPrompt userMessage context)]
          match w.groq systemPrompt (userPrompt userMessage context) with
          | .rejects => serverError db1 calls
          | .content c =>
            { response := some ⟨200, orElseString c noContentReply⟩, thrown := none,
              collections := db1, calls := calls }

/-! ## Lemmas on the string methods -/

theorem includesList_iff (needle hay : List Char) :
    includesList needle hay = true ↔ needle <:+: hay := by
  induction hay with
  | nil => simp [includesList]
  | cons c cs ih =>
    simp only [includesList, Bool.or_eq_true, ih, List.isPrefixOf_iff_prefix]
    exact (List.infix_cons_iff).symm

theorem includes_iff (s needle : String) :
    includes s needle = true ↔ needle.data <:+: s.data :=
  includesList_iff _ _

theorem toLowerCaseList_append (u : UnicodeLower) (xs ys before : List Char) :
    toLowerCaseList u before (xs ++ ys) =
      toLowerCaseList (fun b c a => u b c (a ++ ys)) before xs ++
        toLowerCaseList u (xs.reverse ++ before) ys := by
  induction xs generalizing before with
  | nil => simp [toLowerCaseList]
  | cons x xs ih =>
    simp [toLowerCaseList, ih, List.append_assoc]

theorem toLowerCaseList_lowerAscii (u : UnicodeLower) (needle before : List Char)
    (h : isLowerAscii needle = true) : toLowerCaseList u before needle = needle := by
  induction needle generalizing before with
  | nil => simp [toLowerCaseList]
  | cons x xs ih =>
    simp only [isLowerAscii, List.all_cons, Bool.and_eq_true, decide_eq_true_eq] at h
    have hxs : isLowerAscii xs = true := by
      simpa [isLowerAscii] using h.2
    simp [toLowerCaseList, h.1.1, h.1.2, ih _ hxs]

/-- Lower-casing keeps every occurrence of a needle that is already lower-case
ASCII. -/
theorem includes_toLowerCase (u : UnicodeLower) (s needle : String)
    (hn : isLowerAscii needle.data = true) (h : includes s needle = true) :
    includes (toLowerCase u s) needle = true := by
  rw [includes_iff] at *
  obtain ⟨a, b, hab⟩ := h
  simp only [toLowerCase]
  rw [← hab, List.append_assoc, toLowerCaseList_append, toLowerCaseList_append,
    toLowerCaseList_lowerAscii _ _ _ hn]
  exact ⟨_, _, (List.append_assoc _ _ _)⟩

theorem dropWhile_append_solid (p : Char → Bool) (c : Char) (rest : List Char)
    (hc : p c = false) (a : List Char) :
    ∃ a', (a ++ c :: rest).dropWhile p = a' ++ c :: rest := by
  induction a with
  | nil => exact ⟨[], by simp [List.dropWhile, hc]⟩
  | cons x a ih =>
    by_cases hx : p x = true
    · obtain ⟨a', ha'⟩ := ih
      exact ⟨a', by simp [List.dropWhile, hx, ha']⟩
    · exact ⟨x :: a, by simp [List.dropWhile, hx]⟩

theorem infix_trimList (needle hay : List Char) (hs : hasSolidEnds needle = true)
    (h : needle <:+: hay) : needle <:+: trimList hay := by
  obtain ⟨a, b, rfl⟩ := h
  unfold hasSolidEnds at hs
  split at hs
  · rename_i c t d r hr
    simp only [Bool.and_eq_true, Bool.not_eq_true'] at hs
    obtain ⟨a', ha'⟩ := dropWhile_append_solid isWhiteSpace c (t ++ b) hs.1 a
    have h1 : (a ++ c :: t ++ b).dropWhile isWhiteSpace = a' ++ (c :: t) ++ b := by
      simpa using ha'
    obtain ⟨b', hb'⟩ := dropWhile_append_solid isWhiteSpace d (r ++ a'.reverse) hs.2 b.reverse
    have h2 : (a' ++ (c :: t) ++ b).reverse.dropWhile isWhiteSpace =
        b' ++ (c :: t).reverse ++ a'.reverse := by
      rw [List.reverse_append, List.reverse_append, hr]
      simpa using hb'
    unfold trimList
    rw [h1, h2]
    refine ⟨a', b'.reverse, ?_⟩
    simp
  · simp at hs

/-- Trimming keeps every occurrence of a needle that neither starts nor ends
with white space. -/
theorem includes_trim (s needle : String) (hn : hasSolidEnds needle.data = true)
    (h : includes s needle = true) : includes (trim s) needle = true := by
  rw [includes_iff] at *
  exact infix_trimList _ _ hn h

theorem trimList_eq_nil_iff (cs : List Char) :
    trimList cs = [] ↔ ∀ c ∈ cs, isWhiteSpace c = true := by
  unfold trimList
  rw [List.reverse_eq_nil_iff, List.dropWhile_eq_nil_iff]
  constructor
  · intro h c hc
    by_cases hd : c ∈ cs.dropWhile isWhiteSpace
    · exact h c (List.mem_reverse.mpr hd)
    · have hsplit := List.takeWhile_append_dropWhile isWhiteSpace cs
      rw [← hsplit, List.mem_append] at hc
      rcases hc with hc | hc
      · exact List.mem_takeWhile_imp hc
      · exact absurd hc hd
  · intro h c hc
    exact h c ((List.dropWhile_sublist _).subset (List.mem_reverse.mp hc))

/-- The trimmed message is empty exactly when the message is empty or consists
of white space only. -/
theorem trim_eq_empty_iff (s : String) :
    trim s = "" ↔ ∀ c ∈ s.data, isWhiteSpace c = true := by
  rw [← trimList_eq_nil_iff]
  constructor
  · intro h
    have := congrArg String.data h
    simpa [trim] using this
  · intro h
    simp [trim, h]

/-! ## Lemmas on the classifier -/

theorem detectedState_mem (m : String) :
    detectedState m ∈ ["lagos", "abuja", "kano", "rivers", "general"] := by
  simp only [detectedState, states, List.find?]
  repeat' split
  all_goals simp_all [orElseString]

theorem detectedState_lagos (m : String) (h : includes m "lagos" = true) :
    detectedState m = "lagos" := by
  simp [detectedState, states, List.find?, h, orElseString]

theorem detectedState_general (m : String) (h1 : includes m "lagos" = false)
    (h2 : includes m "abuja" = false) (h3 : includes m "kano" = false)
    (h4 : includes m "rivers" = false) : detectedState m = "general" := by
  simp [detectedState, states, List.find?, h1, h2, h3, h4, orElseString]

theorem classify_subtopic_mem (u : UnicodeLower) (msg : String) :
    (classify u msg).2 ∈ ["general", "lagos", "abuja", "kano", "rivers", "APC", "PDP"] := by
  have hd := detectedState_mem (toLowerCase u msg)
  simp only [List.mem_cons, List.mem_singleton, List.not_mem_nil, or_false] at hd
  simp only [classify, classifyLower]
  repeat' split
  all_goals rcases hd with hd | hd | hd | hd | hd <;> simp [hd]

theorem classify_topic_mem (u : UnicodeLower) (msg : String) :
    (classify u msg).1 ∈ ["registration", "polling station", "party platform", "general"] := by
  simp only [classify, classifyLower]
  repeat' split
  all_goals simp

theorem findOne_eq_some_iff (store : List VoterInfo) (topic subtopic : String) (d : VoterInfo) :
    findOne store topic subtopic = some d ↔ IsFirstMatch store topic subtopic d := by
  simp only [findOne, List.find?_eq_some, IsFirstMatch, decide_eq_true_eq, Bool.not_eq_true,
    decide_eq_false_iff_not, Bool.not_eq_eq_eq_not, Bool.not_true]
  constructor
  · rintro ⟨⟨h1, h2⟩, as, bs, hs, ha⟩
    exact ⟨as, bs, hs, h1, h2, ha⟩
  · rintro ⟨as, bs, hs, h1, h2, ha⟩
    exact ⟨⟨h1, h2⟩, as, bs, hs, ha⟩

theorem findOne_eq_none_iff (store : List VoterInfo) (topic subtopic : String) :
    findOne store topic subtopic = none ↔
      ∀ d ∈ store, ¬ (d.topic = topic ∧ d.subtopic = subtopic) := by
  simp [findOne]

theorem findOne_isSome_of_mem (store : List VoterInfo) (topic subtopic : String)
    (h : ∃ d ∈ store, d.topic = topic ∧ d.subtopic = subtopic) :
    ∃ d, findOne store topic subtopic = some d := by
  cases hf : findOne store topic subtopic with
  | some d => exact ⟨d, rfl⟩
  | none =>
    obtain ⟨d, hd, hm⟩ := h
    exact absurd hm ((findOne_eq_none_iff _ _ _).mp hf d hd)

/-! ## The claims -/

/-- C1: for the message "How do I register in Lagos?" against the seeded
store the classifier yields ("registration","lagos"), the exact query finds
nothing, the fallback query is issued, and the context placed in the user
prompt is built from the general registration fact, not from the Lagos one. -/
theorem chatHandler_register_lagos (u : UnicodeLower) (now t : Nat) (log : List QueryLog)
    (g : String → String → Completion) :
    classify u "How do I register in Lagos?" = ("registration", "lagos") ∧
    lookupInfo (sampleData now) "registration" "lagos" =
      some { topic := "registration", subtopic := "general", details := "To register as a voter in Nigeria, visit INEC website at inec.gov.ng or any INEC office with your NIN and valid ID. Registration is free and open year-round.", lastUpdated := now } ∧
    lookupInfo (sampleData now) "registration" "lagos" ≠
      some { topic := "registration", subtopic := "Lagos", details := "In Lagos State, register at INEC offices or designated centers. Use your BVN or NIN. Continuous registration available; check inec.gov.ng for nearest location.", lastUpdated := now } ∧
    (chatHandler ⟨u, t, true, true, g⟩ ⟨sampleData now, log⟩
        (.string "How do I register in Lagos?")).calls =
      [ .queryLogCreate "How do I register in Lagos?" "registration" "lagos",
        .voterInfoFindOne "registration" "lagos",
        .voterInfoFindOne "registration" "general",
        .groqCreate systemPrompt "How do I register in Lagos?\n\nContext from database: Relevant facts: To register as a voter in Nigeria, visit INEC website at inec.gov.ng or any INEC office with your NIN and valid ID. Registration is free and open year-round." ] := by
  refine ⟨rfl, rfl, ?_, ?_⟩
  · rw [show lookupInfo (sampleData now) "registration" "lagos" = some _ from rfl]
    simp
  simp only [chatHandler, messageTrim]
  have ht : trim "How do I register in Lagos?" = "How do I register in Lagos?" := by decide
  rw [ht]
  have hc : classify u "How do I register in Lagos?" = ("registration", "lagos") := rfl
  rw [hc]
  simp only [Bool.not_true, Bool.false_eq_true, if_false]
  rw [if_neg (by decide)]
  split <;> rfl

/-- C2 (counterexample): the message "register at a polling unit in lagos"
contains "polling" and "lagos", and the classifier of the handler returns
("registration","lagos"), not ("polling station","lagos"). -/
theorem classify_polling_lagos_counterexample :
    (includes "register at a polling unit in lagos" "polling" = true ∧
      includes "register at a polling unit in lagos" "lagos" = true) ∧
    ∀ u : UnicodeLower,
      classify u (trim "register at a polling unit in lagos") = ("registration", "lagos") ∧
      classify u (trim "register at a polling unit in lagos") ≠ ("polling station", "lagos") :=
  ⟨⟨by decide, by decide⟩, fun u =>
    ⟨rfl, by
      rw [show classify u (trim "register at a polling unit in lagos") =
        ("registration", "lagos") from rfl]
      decide⟩⟩

/-- C2 (amended): for every chat message that contains "polling" and contains
"lagos" and whose lower-cased text (the lower-cased trimmed message of the
handler) contains neither "register" nor "registration", the classifier of the
handler returns topic "polling station" and subtopic "lagos". -/
theorem classify_polling_lagos (u : UnicodeLower) (message : String)
    (hp : includes message "polling" = true) (hl : includes message "lagos" = true)
    (hr : includes (toLowerCase u (trim message)) "register" = false)
    (hr2 : includes (toLowerCase u (trim message)) "registration" = false) :
    classify u (trim message) = ("polling station", "lagos") := by
  have hp2 := includes_toLowerCase u (trim message) "polling" (by decide)
    (includes_trim message "polling" (by decide) hp)
  have hl2 := includes_toLowerCase u (trim message) "lagos" (by decide)
    (includes_trim message "lagos" (by decide) hl)
  simp [classify, classifyLower, hr, hr2, hp2, detectedState_lagos _ hl2]

/-- C2 (witness): the amended claim at the message
"  Where is my polling unit in lagos? ". -/
theorem classify_polling_lagos_witness :
    (includes "  Where is my polling unit in lagos? " "polling" = true ∧
      includes "  Where is my polling unit in lagos? " "lagos" = true) ∧
    ∀ u : UnicodeLower,
      includes (toLowerCase u (trim "  Where is my polling unit in lagos? ")) "register" =
        false ∧
      includes (toLowerCase u (trim "  Where is my polling unit in lagos? ")) "registration" =
        false ∧
      classify u (trim "  Where is my polling unit in lagos? ") = ("polling station", "lagos") :=
  ⟨⟨by decide, by decide⟩, fun u =>
    ⟨rfl, rfl,
      classify_polling_lagos u "  Where is my polling unit in lagos? " (by decide) (by decide)
        rfl rfl⟩⟩

/-- C3 (counterexample): the lower-cased text of "apc or pdp?" contains both
"apc" and "pdp", and the classifier returns subtopic "general", not "APC". -/
theorem classify_apc_pdp_counterexample :
    (∀ u : UnicodeLower,
      includes (toLowerCase u "apc or pdp?") "apc" = true ∧
      includes (toLowerCase u "apc or pdp?") "pdp" = true) ∧
    ∀ u : UnicodeLower,
      classify u "apc or pdp?" = ("general", "general") ∧
      (classify u "apc or pdp?").2 ≠ "APC" :=
  ⟨fun _ => ⟨rfl, rfl⟩, fun u =>
    ⟨rfl, by
      rw [show classify u "apc or pdp?" = ("general", "general") from rfl]
      decide⟩⟩

/-- C3 (amended): for every chat message whose lower-cased text contains both
"apc" and "pdp", contains "party" or "platform", and contains none of
"register", "registration", "polling", "station", "vote", the classifier
returns topic "party platform" and subtopic "APC". -/
theorem classify_apc_pdp (u : UnicodeLower) (msg : String)
    (ha : includes (toLowerCase u msg) "apc" = true)
    (_hd : includes (toLowerCase u msg) "pdp" = true)
    (hparty : includes (toLowerCase u msg) "party" = true ∨
      includes (toLowerCase u msg) "platform" = true)
    (hr : includes (toLowerCase u msg) "register" = false)
    (hr2 : includes (toLowerCase u msg) "registration" = false)
    (hp : includes (toLowerCase u msg) "polling" = false)
    (hs : includes (toLowerCase u msg) "station" = false)
    (hv : includes (toLowerCase u msg) "vote" = false) :
    classify u msg = ("party platform", "APC") := by
  simp [classify, classifyLower, hr, hr2, hp, hs, hv, ha, hparty]

/-- C3 (witness): the amended claim at the message
"Compare the APC and PDP party platforms". -/
theorem classify_apc_pdp_witness :
    (∀ u : UnicodeLower,
      includes (toLowerCase u "Compare the APC and PDP party platforms") "apc" = true ∧
      includes (toLowerCase u "Compare the APC and PDP party platforms") "pdp" = true) ∧
    ∀ u : UnicodeLower,
      classify u "Compare the APC and PDP party platforms" = ("party platform", "APC") :=
  ⟨fun _ => ⟨rfl, rfl⟩, fun u =>
    classify_apc_pdp u "Compare the APC and PDP party platforms" rfl rfl (Or.inl rfl)
      rfl rfl rfl rfl rfl⟩

/-- C4: for every chat message whose lower-cased text contains "register" and
none of "lagos", "abuja", "kano", "rivers", the classifier returns topic
"registration" and subtopic "general", whatever else the message contains. -/
theorem classify_register_no_region (u : UnicodeLower) (msg : String)
    (hr : includes (toLowerCase u msg) "register" = true)
    (h1 : includes (toLowerCase u msg) "lagos" = false)
    (h2 : includes (toLowerCase u msg) "abuja" = false)
    (h3 : includes (toLowerCase u msg) "kano" = false)
    (h4 : includes (toLowerCase u msg) "rivers" = false) :
    classify u msg = ("registration", "general") := by
  simp [classify, classifyLower, hr, detectedState_general _ h1 h2 h3 h4]

/-- C4 (witness): the claim at a message that has "REGISTER" in upper case and
keywords of every other branch. -/
theorem classify_register_no_region_witness :
    (∀ u : UnicodeLower,
      includes (toLowerCase u "REGISTER to vote: polling station, party platform, APC, PDP")
        "register" = true) ∧
    ∀ u : UnicodeLower,
      classify u "REGISTER to vote: polling station, party platform, APC, PDP" =
        ("registration", "general") :=
  ⟨fun _ => rfl, fun u => classify_register_no_region u
    "REGISTER to vote: polling station, party platform, APC, PDP" rfl rfl rfl rfl rfl⟩

/-- C5: for every store and every (topic, subtopic): when no entry matches
(topic, subtopic) but some entry has that topic and subtopic "general", the
lookup returns the first entry with that topic and subtopic "general" (not
null); and when an entry matches (topic, subtopic), the lookup returns the
first such entry. -/
theorem lookupInfo_exact_then_general (store : List VoterInfo) (topic subtopic : String) :
    ((∀ d ∈ store, ¬ (d.topic = topic ∧ d.subtopic = subtopic)) →
      (∃ d ∈ store, d.topic = topic ∧ d.subtopic = "general") →
      ∃ d, lookupInfo store topic subtopic = some d ∧ IsFirstMatch store topic "general" d) ∧
    ((∃ d ∈ store, d.topic = topic ∧ d.subtopic = subtopic) →
      ∃ d, lookupInfo store topic subtopic = some d ∧ IsFirstMatch store topic subtopic d) := by
  constructor
  · intro hno hgen
    obtain ⟨d, hd⟩ := findOne_isSome_of_mem store topic "general" hgen
    refine ⟨d, ?_, (findOne_eq_some_iff _ _ _ _).mp hd⟩
    simp [lookupInfo, (findOne_eq_none_iff store topic subtopic).mpr hno, hd]
  · intro hex
    obtain ⟨d, hd⟩ := findOne_isSome_of_mem store topic subtopic hex
    refine ⟨d, ?_, (findOne_eq_some_iff _ _ _ _).mp hd⟩
    simp [lookupInfo, hd]

/-- C5 (witness): on the seed data, ("registration","kano") falls back to the
general registration entry and ("party platform","PDP") is matched exactly. -/
theorem lookupInfo_exact_then_general_witness :
    (∃ d, lookupInfo (sampleData 0) "registration" "kano" = some d ∧
      IsFirstMatch (sampleData 0) "registration" "general" d) ∧
    (∃ d, lookupInfo (sampleData 0) "party platform" "PDP" = some d ∧
      IsFirstMatch (sampleData 0) "party platform" "PDP" d) :=
  ⟨(lookupInfo_exact_then_general (sampleData 0) "registration" "kano").1 (by decide)
      (by decide),
    (lookupInfo_exact_then_general (sampleData 0) "party platform" "PDP").2 (by decide)⟩

/-- C6: for every chat request whose message is a string that is empty after
trimming, the handler responds with status 200 and the static greeting,
leaves the collections (the query log among them) unchanged and makes no call
to a collaborator: no log write, no fact-store read, no completion call. -/
theorem chatHandler_empty_message (w : Collaborators) (db : Collections) (msg : String)
    (h : trim msg = "") :
    chatHandler w db (.string msg) =
      { response := some ⟨200, "Hello! What voter question can I help with today? 😄"⟩,
        thrown := none, collections := db, calls := [] } := by
  simp [chatHandler, messageTrim, h, greeting]

/-- C6 (witness): the claim at a message of a blank, a tab, a line feed and a
blank. -/
theorem chatHandler_empty_message_witness :
    trim " \t\n " = "" ∧
    ∀ (w : Collaborators) (db : Collections),
      chatHandler w db (.string " \t\n ") =
        { response := some ⟨200, "Hello! What voter question can I help with today? 😄"⟩,
          thrown := none, collections := db, calls := [] } :=
  ⟨by decide, fun w db => chatHandler_empty_message w db " \t\n " (by decide)⟩

/-- C7: for every chat request with a non-empty trimmed message for which the
query-log write and the fact lookup succeed and the completion call rejects,
the handler answers with status 500 and the static apology, and the query log
has gained exactly one entry, holding the trimmed message and its classified
topic and subtopic; the fact store is unchanged. -/
theorem chatHandler_completion_rejects (w : Collaborators) (db : Collections) (msg : String)
    (hne : trim msg ≠ "") (hlog : w.queryLogCreate = true)
    (hfind : w.voterInfoFindOne = true)
    (hg : w.groq systemPrompt
      (userPrompt (trim msg)
        (contextOf (lookupInfo db.voterInfo (classify w.lower (trim msg)).1
          (classify w.lower (trim msg)).2))) = .rejects) :
    (chatHandler w db (.string msg)).response =
      some ⟨500, "Aw, shucks—I'm having a hiccup. For voter registration, head to inec.gov.ng. What else can I clarify?"⟩ ∧
    (chatHandler w db (.string msg)).thrown = none ∧
    (chatHandler w db (.string msg)).collections.queryLog =
      db.queryLog ++
        [⟨trim msg, (classify w.lower (trim msg)).1, (classify w.lower (trim msg)).2, w.now⟩] ∧
    (chatHandler w db (.string msg)).collections.voterInfo = db.voterInfo := by
  simp [chatHandler, messageTrim, hne, hlog, hfind, hg, serverError, apology]

/-- C7 (witness): the claim at the message "  Where do I vote in Kano? " with
an empty query log, the seed data and a completion service that rejects. -/
theorem chatHandler_completion_rejects_witness :
    trim "  Where do I vote in Kano? " ≠ "" ∧
    (chatHandler ⟨fun _ c _ => [c], 7, true, true, fun _ _ => .rejects⟩ ⟨sampleData 0, []⟩
        (.string "  Where do I vote in Kano? ")).response =
      some ⟨500, "Aw, shucks—I'm having a hiccup. For voter registration, head to inec.gov.ng. What else can I clarify?"⟩ ∧
    (chatHandler ⟨fun _ c _ => [c], 7, true, true, fun _ _ => .rejects⟩ ⟨sampleData 0, []⟩
        (.string "  Where do I vote in Kano? ")).collections.queryLog =
      [{ userMessage := "Where do I vote in Kano?", topic := "polling station",
         subtopic := "kano", timestamp := 7 }] :=
  have h := chatHandler_completion_rejects
    ⟨fun _ c _ => [c], 7, true, true, fun _ _ => .rejects⟩ ⟨sampleData 0, []⟩
    "  Where do I vote in Kano? " (by decide) rfl rfl rfl
  ⟨by decide, h.1, h.2.2.1⟩

/-- C8: for a chat request whose body has no message field, or a message that
is not a string, the trim step raises a type error outside the try block: the
handler sends no response (neither the 500 apology nor any other), the error
leaves the handler, no query-log entry is written and no collaborator is
called. -/
theorem chatHandler_message_not_string (w : Collaborators) (db : Collections) (v : JsValue)
    (h : ∀ s, v ≠ .string s) :
    chatHandler w db v =
      { response := none, thrown := some .typeError, collections := db, calls := [] } := by
  cases v with
  | string s => exact absurd rfl (h s)
  | _ => rfl

/-- C8 (witness): the claim at a body without a message field. -/
theorem chatHandler_message_not_string_witness :
    (∀ s, JsValue.undefined ≠ .string s) ∧
    ∀ (w : Collaborators) (db : Collections),
      chatHandler w db .undefined =
        { response := none, thrown := some .typeError, collections := db, calls := [] } :=
  ⟨fun _ h => JsValue.noConfusion h, fun w db =>
    chatHandler_message_not_string w db .undefined (fun _ h => JsValue.noConfusion h)⟩

/-- C9: seeding an empty store and then seeding again leaves exactly the six
entries of sampleData, without duplicates: the second run sees a count that is
not zero and inserts nothing; and seeding leaves every non-empty store
unchanged. -/
theorem seed_twice (now1 now2 now : Nat) (store : List VoterInfo) :
    (seed now1 []).length ≠ 0 ∧
    seed now2 (seed now1 []) = sampleData now1 ∧
    (seed now2 (seed now1 [])).length = 6 ∧
    (seed now2 (seed now1 [])).Nodup ∧
    (store ≠ [] → seed now store = store) := by
  have h1 : seed now1 [] = sampleData now1 := rfl
  have h2 : seed now2 (sampleData now1) = sampleData now1 := rfl
  refine ⟨by rw [h1]; simp [sampleData], by rw [h1, h2], by rw [h1, h2]; rfl, ?_, ?_⟩
  · rw [h1, h2]
    simp [sampleData]
  · intro hs
    have : store.length ≠ 0 := by simpa using hs
    simp [seed, this]

/-- C9 (witness): seeding the seeded store changes nothing. -/
theorem seed_twice_witness :
    sampleData 5 ≠ [] ∧ seed 9 (sampleData 5) = sampleData 5 :=
  ⟨by decide, (seed_twice 0 0 9 (sampleData 5)).2.2.2.2 (by decide)⟩

/-- C10: for every chat message, against a store holding exactly the seeded
sampleData, the classifier yields a subtopic among "general", "lagos", "abuja",
"kano", "rivers", "APC", "PDP", and a fact the lookup selects never has
subtopic "Lagos": it is neither of the two Lagos entries of sampleData. -/
theorem lookupInfo_never_Lagos (u : UnicodeLower) (now : Nat) (msg : String) (d : VoterInfo)
    (h : lookupInfo (sampleData now) (classify u msg).1 (classify u msg).2 = some d) :
    (classify u msg).2 ∈ ["general", "lagos", "abuja", "kano", "rivers", "APC", "PDP"] ∧
    d.subtopic ≠ "Lagos" := by
  have ht := classify_topic_mem u msg
  have hs := classify_subtopic_mem u msg
  refine ⟨hs, ?_⟩
  simp only [List.mem_cons, List.mem_singleton, List.not_mem_nil, or_false] at ht hs
  rcases ht with ht | ht | ht | ht <;> rcases hs with hs | hs | hs | hs | hs | hs | hs <;>
    rw [ht, hs] at h <;>
    simp [lookupInfo, findOne, sampleData] at h <;>
    (subst h; simp)

/-- C10 (witness): for "How do I register in Lagos?" the lookup selects the
general registration entry. -/
theorem lookupInfo_never_Lagos_witness :
    (∀ u : UnicodeLower,
      lookupInfo (sampleData 0) (classify u "How do I register in Lagos?").1
        (classify u "How do I register in Lagos?").2 =
          some ⟨"registration", "general", "To register as a voter in Nigeria, visit INEC website at inec.gov.ng or any INEC office with your NIN and valid ID. Registration is free and open year-round.", 0⟩) ∧
    (classify (fun _ c _ => [c]) "How do I register in Lagos?").2 ∈
      ["general", "lagos", "abuja", "kano", "rivers", "APC", "PDP"] ∧
    (⟨"registration", "general", "To register as a voter in Nigeria, visit INEC website at inec.gov.ng or any INEC office with your NIN and valid ID. Registration is free and open year-round.", 0⟩ : VoterInfo).subtopic ≠ "Lagos" :=
  ⟨fun _ => rfl,
    lookupInfo_never_Lagos (fun _ c _ => [c]) 0 "How do I register in Lagos?" _ rfl⟩

end VoterChatbot
